import Mathlib

/-!
Verification of the offline emergency-data cache of the PolicyVault web
application (source: the IndexedDB caching module exporting
`cacheEmergencyData`, `getCachedEmergencyData`, `clearCachedEmergencyData`
and `formatCacheTimestamp`).

The module is a thin asynchronous key/value layer over IndexedDB.  We embed
it as explicit state passing over a functional store.  The points of the
JavaScript semantics that matter are modelled explicitly:

* `dbPromise` memoizes the *settled outcome* of the one `openDB` call,
  success or failure alike: the variable is assigned before the promise
  settles and is never reset, so a rejected open is cached and returned to
  every later caller (`openDB` below threads `memo`).

* Each operation's body is `try { const db = await openDB(); return new
  Promise(...) } catch ...`.  The `await openDB()` rejection is raised
  inside the `try`, so the `catch` handles it.  The inner promise, however,
  is *returned without `await`*: the async function's result promise adopts
  its state only after control has left the `try` block, so a rejection of
  the inner promise (the transaction/request `onerror` path) bypasses the
  `catch` and is observed by the caller as a rejected promise.  The
  embedding therefore returns `.ok` on an open failure (caught) and
  `.error .txError` on a transaction failure (not caught).

* `store.put` on an object store with `keyPath: 'key'` replaces the entry
  with the same key; the store is embedded as `String → Option (CachedData α)`.

* `Date.now()` / clocks are passed in as explicit `Int` millisecond
  parameters; `Math.floor` of a real division by a positive constant is
  `Int.fdiv`; `toLocaleDateString` is host-locale dependent and is passed
  in as an opaque `Int → String` parameter.
-/

namespace PolicyVault.OfflineCache

/-- The failure modes of the underlying store, per the spec's taxonomy:
`storeUnavailable` (no IndexedDB in the host), `openError` (the
`indexedDB.open` request fires `onerror`), `txError` (a
read/write/delete request fires `onerror`). -/
inductive CacheError where
  | storeUnavailable
  | openError
  | txError
deriving DecidableEq, Repr

instance : DecidableEq (Except CacheError Unit) := fun a b =>
  match a, b with
  | .ok x, .ok y =>
      if h : x = y then isTrue (by rw [h]) else isFalse (by intro hc; cases hc; exact h rfl)
  | .error x, .error y =>
      if h : x = y then isTrue (by rw [h]) else isFalse (by intro hc; cases hc; exact h rfl)
  | .ok _, .error _ => isFalse (by intro h; cases h)
  | .error _, .ok _ => isFalse (by intro h; cases h)

/-- The host environment as seen by one call: whether
`typeof window !== 'undefined' && window.indexedDB` holds, whether the
`indexedDB.open` request errors, and whether the per-call transaction
request errors. -/
structure Env where
  indexedDBAvailable : Bool
  openFails : Bool
  txFails : Bool
deriving DecidableEq, Repr

/-- The source's `CachedData` record: `{ key, data, timestamp }`, stored in
the object store with `keyPath: 'key'`. -/
structure CachedData (α : Type) where
  key : String
  data : α
  timestamp : Int
deriving Repr

/-- The module-level mutable state: the memoized `dbPromise` (modelled by
the settled outcome of the open, `none` before the first call) and the
contents of the `emergency` object store, keyed by `key`. -/
structure CacheState (α : Type) where
  memo : Option (Except CacheError Unit)
  store : String → Option (CachedData α)

/-- The state before any call: `dbPromise = null` and an empty store. -/
def initialState (α : Type) : CacheState α :=
  ⟨none, fun _ => none⟩

/-- `openDB()`: if `dbPromise` is set it is returned as-is (the memo is
assigned before the promise settles and never cleared, so failed opens are
memoized too).  Otherwise the capability check runs: no IndexedDB rejects
with `storeUnavailable`; an erroring open request rejects with `openError`;
otherwise the open resolves.  Returns the new memo and the settled
outcome. -/
def openDB (memo : Option (Except CacheError Unit)) (env : Env) :
    Option (Except CacheError Unit) × Except CacheError Unit :=
  match memo with
  | some r => (some r, r)
  | none =>
      let r : Except CacheError Unit :=
        if !env.indexedDBAvailable then .error .storeUnavailable
        else if env.openFails then .error .openError
        else .ok ()
      (some r, r)

/-- `cacheEmergencyData(key, data)` (Put): awaits `openDB` inside `try`
(a rejection there is caught, logged and swallowed, leaving the store
unchanged); on success it runs a readwrite transaction building
`{ key, data, timestamp: Date.now() }` and `store.put`s it.  The inner
transaction promise is returned from inside the `try` without `await`, so
its rejection (`request.onerror`) is NOT caught: the caller observes the
error.  On transaction success the entry replaces any previous entry for
`key`. -/
def cacheEmergencyData (key : String) (data : α) (now : Int) (env : Env)
    (st : CacheState α) : CacheState α × Except CacheError Unit :=
  match openDB st.memo env with
  | (memo', .error _) => (⟨memo', st.store⟩, .ok ())
  | (memo', .ok ()) =>
      if env.txFails then
        (⟨memo', st.store⟩, .error .txError)
      else
        (⟨memo', fun k => if k = key then some ⟨key, data, now⟩ else st.store k⟩,
         .ok ())

/-- `getCachedEmergencyData(key)` (Get): an `openDB` rejection is caught
and the `catch` returns `null`; on success a readonly transaction issues
`store.get(key)`, resolving `{ data, timestamp }` when an entry exists and
`null` otherwise.  As with Put, the inner promise is returned from inside
the `try` without `await`, so a transaction rejection bypasses the `catch`
(which would have returned `null`) and propagates to the caller. -/
def getCachedEmergencyData (key : String) (env : Env) (st : CacheState α) :
    CacheState α × Except CacheError (Option (α × Int)) :=
  match openDB st.memo env with
  | (memo', .error _) => (⟨memo', st.store⟩, .ok none)
  | (memo', .ok ()) =>
      if env.txFails then
        (⟨memo', st.store⟩, .error .txError)
      else
        match st.store key with
        | some e => (⟨memo', st.store⟩, .ok (some (e.data, e.timestamp)))
        | none => (⟨memo', st.store⟩, .ok none)

/-- `clearCachedEmergencyData(key)` (Delete): an `openDB` rejection is
caught and swallowed; on success a readwrite transaction issues
`store.delete(key)` (a no-op when the key is absent).  A transaction
rejection again bypasses the `catch` and propagates. -/
def clearCachedEmergencyData (key : String) (env : Env) (st : CacheState α) :
    CacheState α × Except CacheError Unit :=
  match openDB st.memo env with
  | (memo', .error _) => (⟨memo', st.store⟩, .ok ())
  | (memo', .ok ()) =>
      if env.txFails then
        (⟨memo', st.store⟩, .error .txError)
      else
        (⟨memo', fun k => if k = key then none else st.store k⟩, .ok ())

/-- `formatCacheTimestamp(timestamp)`: buckets the elapsed time
`now - timestamp` (milliseconds) by floored division and renders the
relative phrase, falling back to `date.toLocaleDateString()` (the
host-locale formatter, passed in as `localeDate`). -/
def formatCacheTimestamp (localeDate : Int → String) (now timestamp : Int) :
    String :=
  let diffMs := now - timestamp
  let diffMins := Int.fdiv diffMs 60000
  let diffHours := Int.fdiv diffMs 3600000
  let diffDays := Int.fdiv diffMs 86400000
  if diffMins < 1 then "Just now"
  else if diffMins < 60 then
    toString diffMins ++ " minute" ++ (if diffMins = 1 then "" else "s") ++ " ago"
  else if diffHours < 24 then
    toString diffHours ++ " hour" ++ (if diffHours = 1 then "" else "s") ++ " ago"
  else if diffDays < 7 then
    toString diffDays ++ " day" ++ (if diffDays = 1 then "" else "s") ++ " ago"
  else localeDate timestamp

/-- The environment of a healthy run: IndexedDB present, open succeeds,
transactions succeed. -/
def happyEnv : Env := ⟨true, false, false⟩

/-- A memo state under which `openDB` resolves in `happyEnv`: either no
call has happened yet or a previous open succeeded.  (A memoized failed
open would make every later operation degrade, so the functional claims
are stated under this hypothesis.) -/
def memoHealthy (m : Option (Except CacheError Unit)) : Prop :=
  m = none ∨ m = some (.ok ())

instance (m : Option (Except CacheError Unit)) : Decidable (memoHealthy m) := by
  unfold memoHealthy; infer_instance

/-- Floored division by a positive constant, compared against a bound:
`Math.floor(a / b) < n ↔ a < n * b`. -/
theorem fdiv_lt_iff (a b n : Int) (hb : 0 < b) : a.fdiv b < n ↔ a < n * b := by
  rw [Int.fdiv_eq_ediv a hb.le]
  exact Int.ediv_lt_iff_lt_mul hb

/-- Under a healthy memo, `openDB` in the healthy environment resolves and
memoizes the success. -/
theorem openDB_happy (m : Option (Except CacheError Unit)) (hm : memoHealthy m) :
    openDB m happyEnv = (some (.ok ()), .ok ()) := by
  rcases hm with hm | hm <;> rw [hm] <;> rfl

theorem happyEnv_txFails : happyEnv.txFails = false := rfl

theorem openDB_some (r : Except CacheError Unit) (env : Env) :
    openDB (some r) env = (some r, r) := rfl

/-- Claim C1: the claim states that Put, Get and Delete never propagate any
internal failure (store unavailable, open failure, or transaction failure)
to the caller.  The code contradicts this for transaction failures: each
operation returns the inner transaction promise from inside its `try`
block without awaiting it, so the rejection fired by `request.onerror`
bypasses the `catch` and the caller observes a rejected promise.  This
theorem evaluates the three operations at the failing input (store opens
fine, the transaction fails) and shows the error reaching the caller. -/
theorem c1_transaction_failure_propagates :
    (cacheEmergencyData "k" (0 : Nat) 0 ⟨true, false, true⟩ (initialState Nat)).2
      = .error .txError ∧
    (getCachedEmergencyData "k" ⟨true, false, true⟩ (initialState Nat)).2
      = .error .txError ∧
    (clearCachedEmergencyData "k" ⟨true, false, true⟩ (initialState Nat)).2
      = .error .txError :=
  ⟨rfl, rfl, rfl⟩

/-- Claim C2, counterexample: the claim states that the memoized
initialization state does not itself poison future attempts — later calls
fail only because of the environment's static capability check.  In the
code `dbPromise` is assigned the rejected promise and never reset, so
after a first open in a capability-less environment, a second call in an
environment where the capability check would pass still fails with the
memoized `storeUnavailable` rejection (while a fresh first call in that
second environment succeeds). -/
theorem c2_memoized_failure_counterexample :
    (openDB (openDB none ⟨false, false, false⟩).1 ⟨true, false, false⟩).2
      = .error .storeUnavailable ∧
    (openDB none ⟨true, false, false⟩).2 = .ok () :=
  ⟨rfl, rfl⟩

/-- Claim C2, amended: the settled initialization result — success or
failure alike — is memoized and returned unchanged to every later call,
regardless of that later call's environment; a failed open therefore
poisons all future attempts for the lifetime of the module state.  (Within
a static environment this is observationally the spec's behavior — every
later call fails identically — but the failures come from the cached
rejection, not from re-running the capability check.) -/
theorem c2_memoized_result_is_permanent (r : Except CacheError Unit)
    (env env2 : Env) :
    openDB (some r) env = (some r, r) ∧
    (openDB (openDB none ⟨false, false, false⟩).1 env2).2
      = .error .storeUnavailable :=
  ⟨rfl, rfl⟩

/-- Claim C3: in a sequential failure-free run, `Put(k, p)` followed by
`Get(k)` returns exactly `p` paired with a `capturedAt` timestamp lying in
the write-to-read window (here it is exactly the clock of the Put). -/
theorem c3_put_get_roundtrip {α : Type} (k : String) (p : α)
    (st : CacheState α) (now1 now2 : Int)
    (hm : memoHealthy st.memo) (hclock : now1 ≤ now2) :
    (cacheEmergencyData k p now1 happyEnv st).2 = .ok () ∧
    ∃ tcap,
      (getCachedEmergencyData k happyEnv
          (cacheEmergencyData k p now1 happyEnv st).1).2
        = .ok (some (p, tcap)) ∧ now1 ≤ tcap ∧ tcap ≤ now2 := by
  have h := openDB_happy st.memo hm
  refine ⟨?_, now1, ?_, le_refl now1, hclock⟩ <;>
    simp [cacheEmergencyData, getCachedEmergencyData, h, openDB_some, happyEnv_txFails]

theorem c3_put_get_roundtrip_witness :
    memoHealthy (initialState Nat).memo ∧ (100 : Int) ≤ 200 ∧
    ((cacheEmergencyData "a" (42 : Nat) 100 happyEnv (initialState Nat)).2
        = .ok () ∧
      ∃ tcap,
        (getCachedEmergencyData "a" happyEnv
            (cacheEmergencyData "a" (42 : Nat) 100 happyEnv
              (initialState Nat)).1).2
          = .ok (some (42, tcap)) ∧ (100 : Int) ≤ tcap ∧ tcap ≤ 200) :=
  ⟨Or.inl rfl, by norm_num,
    c3_put_get_roundtrip "a" 42 (initialState Nat) 100 200 (Or.inl rfl)
      (by norm_num)⟩

/-- Claim C4: `Put(k, p1); Put(k, p2); Get(k)` returns `p2` and only `p2`:
after the second write the single entry for `k` is exactly the record
`{key := k, data := p2, timestamp := now2}` (payload and timestamp replaced
together, never a merge with `p1`), and the read returns `p2` with the
second write's timestamp.  The store maps each key to at most one entry by
construction (`keyPath: 'key'`). -/
theorem c4_last_write_wins {α : Type} (k : String) (p1 p2 : α)
    (st : CacheState α) (now1 now2 : Int) (hm : memoHealthy st.memo) :
    ((cacheEmergencyData k p2 now2 happyEnv
        (cacheEmergencyData k p1 now1 happyEnv st).1).1).store k
      = some ⟨k, p2, now2⟩ ∧
    (getCachedEmergencyData k happyEnv
        (cacheEmergencyData k p2 now2 happyEnv
          (cacheEmergencyData k p1 now1 happyEnv st).1).1).2
      = .ok (some (p2, now2)) := by
  have h := openDB_happy st.memo hm
  constructor <;>
    simp [cacheEmergencyData, getCachedEmergencyData, h, openDB_some, happyEnv_txFails]

theorem c4_last_write_wins_witness :
    memoHealthy (initialState Nat).memo ∧
    (((cacheEmergencyData "a" (2 : Nat) 20 happyEnv
          (cacheEmergencyData "a" (1 : Nat) 10 happyEnv
            (initialState Nat)).1).1).store "a"
        = some ⟨"a", 2, 20⟩ ∧
      (getCachedEmergencyData "a" happyEnv
          (cacheEmergencyData "a" (2 : Nat) 20 happyEnv
            (cacheEmergencyData "a" (1 : Nat) 10 happyEnv
              (initialState Nat)).1).1).2
        = .ok (some (2, 20))) :=
  ⟨Or.inl rfl,
    c4_last_write_wins "a" 1 2 (initialState Nat) 10 20 (Or.inl rfl)⟩

/-- Claim C5: for a past timestamp with elapsed milliseconds
`e = now - t > 0`, FormatAge returns "Just now" when `e` is under one
minute; "N minute(s) ago" with `N = floor(e / 60000)` (singular exactly
when `N = 1`) when under 60 minutes; "N hour(s) ago" with
`N = floor(e / 3600000)` when under 24 hours; "N day(s) ago" with
`N = floor(e / 86400000)` when under 7 days; and the locale-formatted
calendar date otherwise — all boundaries by floored division. -/
theorem c5_format_age_buckets (localeDate : Int → String) (now t : Int)
    (hpast : 0 < now - t) :
    (now - t < 60000 → formatCacheTimestamp localeDate now t = "Just now") ∧
    (60000 ≤ now - t → now - t < 3600000 →
      formatCacheTimestamp localeDate now t =
        toString ((now - t).fdiv 60000) ++ " minute" ++
          (if (now - t).fdiv 60000 = 1 then "" else "s") ++ " ago") ∧
    (3600000 ≤ now - t → now - t < 86400000 →
      formatCacheTimestamp localeDate now t =
        toString ((now - t).fdiv 3600000) ++ " hour" ++
          (if (now - t).fdiv 3600000 = 1 then "" else "s") ++ " ago") ∧
    (86400000 ≤ now - t → now - t < 604800000 →
      formatCacheTimestamp localeDate now t =
        toString ((now - t).fdiv 86400000) ++ " day" ++
          (if (now - t).fdiv 86400000 = 1 then "" else "s") ++ " ago") ∧
    (604800000 ≤ now - t →
      formatCacheTimestamp localeDate now t = localeDate t) := by
  refine ⟨fun h1 => ?_, fun h1 h2 => ?_, fun h1 h2 => ?_, fun h1 h2 => ?_,
    fun h1 => ?_⟩ <;>
    simp only [formatCacheTimestamp]
  · rw [if_pos (by rw [fdiv_lt_iff _ _ _ (by norm_num)]; omega)]
  · rw [if_neg (by rw [fdiv_lt_iff _ _ _ (by norm_num)]; omega),
      if_pos (by rw [fdiv_lt_iff _ _ _ (by norm_num)]; omega)]
  · rw [if_neg (by rw [fdiv_lt_iff _ _ _ (by norm_num)]; omega),
      if_neg (by rw [fdiv_lt_iff _ _ _ (by norm_num)]; omega),
      if_pos (by rw [fdiv_lt_iff _ _ _ (by norm_num)]; omega)]
  · rw [if_neg (by rw [fdiv_lt_iff _ _ _ (by norm_num)]; omega),
      if_neg (by rw [fdiv_lt_iff _ _ _ (by norm_num)]; omega),
      if_neg (by rw [fdiv_lt_iff _ _ _ (by norm_num)]; omega),
      if_pos (by rw [fdiv_lt_iff _ _ _ (by norm_num)]; omega)]
  · rw [if_neg (by rw [fdiv_lt_iff _ _ _ (by norm_num)]; omega),
      if_neg (by rw [fdiv_lt_iff _ _ _ (by norm_num)]; omega),
      if_neg (by rw [fdiv_lt_iff _ _ _ (by norm_num)]; omega),
      if_neg (by rw [fdiv_lt_iff _ _ _ (by norm_num)]; omega)]

theorem c5_format_age_buckets_witness :
    formatCacheTimestamp (fun _ => "10/1/2025") 90000 0 = "1 minute ago" := by
  have h := (c5_format_age_buckets (fun _ => "10/1/2025") 90000 0
    (by norm_num)).2.1 (by norm_num) (by norm_num)
  rw [h]; rfl

/-- Claim C6: when opening the store itself fails (the capability check
rejects before any transaction starts: fresh module state, no IndexedDB in
the host), Put and Delete complete normally with no observable throw and
leave the store untouched, and Get returns absent. -/
theorem c6_open_failure_degrades {α : Type} (k k2 : String) (p : α)
    (now : Int) (st : CacheState α) (env : Env)
    (hm : st.memo = none) (hcap : env.indexedDBAvailable = false) :
    (cacheEmergencyData k p now env st).2 = .ok () ∧
    ((cacheEmergencyData k p now env st).1).store k2 = st.store k2 ∧
    (getCachedEmergencyData k env st).2 = .ok none ∧
    (clearCachedEmergencyData k env st).2 = .ok () ∧
    ((clearCachedEmergencyData k env st).1).store k2 = st.store k2 := by
  have h : openDB st.memo env
      = (some (.error .storeUnavailable), .error .storeUnavailable) := by
    rw [hm]; simp [openDB, hcap]
  refine ⟨?_, ?_, ?_, ?_, ?_⟩ <;>
    simp [cacheEmergencyData, getCachedEmergencyData,
      clearCachedEmergencyData, h]

theorem c6_open_failure_degrades_witness :
    (initialState Nat).memo = none ∧
    (Env.mk false false false).indexedDBAvailable = false ∧
    ((cacheEmergencyData "k" (7 : Nat) 5 ⟨false, false, false⟩
        (initialState Nat)).2 = .ok () ∧
      ((cacheEmergencyData "k" (7 : Nat) 5 ⟨false, false, false⟩
          (initialState Nat)).1).store "k" = (initialState Nat).store "k" ∧
      (getCachedEmergencyData "k" ⟨false, false, false⟩
          (initialState Nat)).2 = .ok none ∧
      (clearCachedEmergencyData "k" ⟨false, false, false⟩
          (initialState Nat)).2 = .ok () ∧
      ((clearCachedEmergencyData "k" ⟨false, false, false⟩
          (initialState Nat)).1).store "k" = (initialState Nat).store "k") :=
  ⟨rfl, rfl,
    c6_open_failure_degrades "k" "k" 7 5 (initialState Nat)
      ⟨false, false, false⟩ rfl rfl⟩

/-- Claim C7: Delete on a key with no entry completes without error as a
no-op (the store is unchanged at every key); after a Delete, Get on that
key returns absent; and a subsequent Put stores a new entry that Get then
returns. -/
theorem c7_delete_semantics {α : Type} (k : String) (st : CacheState α)
    (hm : memoHealthy st.memo) :
    (clearCachedEmergencyData k happyEnv st).2 = .ok () ∧
    (getCachedEmergencyData k happyEnv
        (clearCachedEmergencyData k happyEnv st).1).2 = .ok none ∧
    (st.store k = none → ∀ k2,
      ((clearCachedEmergencyData k happyEnv st).1).store k2 = st.store k2) ∧
    (∀ (p : α) (now : Int),
      (getCachedEmergencyData k happyEnv
          (cacheEmergencyData k p now happyEnv
            (clearCachedEmergencyData k happyEnv st).1).1).2
        = .ok (some (p, now))) := by
  have h := openDB_happy st.memo hm
  refine ⟨?_, ?_, fun habs k2 => ?_, fun p now => ?_⟩ <;>
    simp [cacheEmergencyData, getCachedEmergencyData,
      clearCachedEmergencyData, h, openDB_some, happyEnv_txFails]
  intro hk
  rw [hk]; exact habs.symm

theorem c7_delete_semantics_witness :
    memoHealthy (initialState Nat).memo ∧
    ((clearCachedEmergencyData "k" happyEnv (initialState Nat)).2
        = .ok () ∧
      (getCachedEmergencyData "k" happyEnv
          (clearCachedEmergencyData "k" happyEnv (initialState Nat)).1).2
        = .ok none ∧
      ((initialState Nat).store "k" = none → ∀ k2,
        ((clearCachedEmergencyData "k" happyEnv (initialState Nat)).1).store k2
          = (initialState Nat).store k2) ∧
      (∀ (p : Nat) (now : Int),
        (getCachedEmergencyData "k" happyEnv
            (cacheEmergencyData "k" p now happyEnv
              (clearCachedEmergencyData "k" happyEnv
                (initialState Nat)).1).1).2
          = .ok (some (p, now)))) :=
  ⟨Or.inl rfl, c7_delete_semantics "k" (initialState Nat) (Or.inl rfl)⟩

/-- Claim C8: the entry stored by Put carries exactly the clock read inside
the operation as its timestamp, together with the caller's payload, as one
record — the caller supplies only the key and the payload (the operation's
signature has no timestamp input), and no other key's entry is touched. -/
theorem c8_capturedAt_set_at_storage {α : Type} (k : String) (p : α)
    (now : Int) (st : CacheState α) (hm : memoHealthy st.memo) :
    ((cacheEmergencyData k p now happyEnv st).1).store k
      = some ⟨k, p, now⟩ ∧
    ∀ k2, k2 ≠ k →
      ((cacheEmergencyData k p now happyEnv st).1).store k2 = st.store k2 := by
  have h := openDB_happy st.memo hm
  refine ⟨?_, fun k2 hk2 => ?_⟩
  · simp [cacheEmergencyData, h, happyEnv_txFails]
  · simp [cacheEmergencyData, h, happyEnv_txFails, hk2]

theorem c8_capturedAt_set_at_storage_witness :
    memoHealthy (initialState Nat).memo ∧
    (((cacheEmergencyData "k" (9 : Nat) 77 happyEnv
          (initialState Nat)).1).store "k" = some ⟨"k", 9, 77⟩ ∧
      ∀ k2, k2 ≠ "k" →
        ((cacheEmergencyData "k" (9 : Nat) 77 happyEnv
            (initialState Nat)).1).store k2 = (initialState Nat).store k2) :=
  ⟨Or.inl rfl,
    c8_capturedAt_set_at_storage "k" 9 77 (initialState Nat) (Or.inl rfl)⟩

/-- Claim C9: for a timestamp not in the past (`now ≤ t`, zero or negative
elapsed time), FormatAge still returns a value, namely "Just now": the
floored negative/zero minute count lands in the first bucket. -/
theorem c9_future_timestamp_just_now (localeDate : Int → String)
    (now t : Int) (h : now ≤ t) :
    formatCacheTimestamp localeDate now t = "Just now" := by
  simp only [formatCacheTimestamp]
  rw [if_pos (by rw [fdiv_lt_iff _ _ _ (by norm_num)]; omega)]

theorem c9_future_timestamp_just_now_witness :
    formatCacheTimestamp (fun _ => "10/1/2025") 0 30000 = "Just now" :=
  c9_future_timestamp_just_now (fun _ => "10/1/2025") 0 30000 (by norm_num)

/-- Claim C10: no operation validates or special-cases the key: the empty
string key behaves exactly like any other key.  Put("", p) succeeds and
stores an entry that Get("") retrieves, Delete("") succeeds, and for every
environment the outcome code of an operation on "" equals the outcome code
of the same operation on any other key. -/
theorem c10_empty_key_not_special {α : Type} (k : String) (p : α)
    (now : Int) (st : CacheState α) (hm : memoHealthy st.memo) :
    (cacheEmergencyData "" p now happyEnv st).2 = .ok () ∧
    ((cacheEmergencyData "" p now happyEnv st).1).store ""
      = some ⟨"", p, now⟩ ∧
    (getCachedEmergencyData "" happyEnv
        (cacheEmergencyData "" p now happyEnv st).1).2
      = .ok (some (p, now)) ∧
    (clearCachedEmergencyData "" happyEnv st).2 = .ok () ∧
    (∀ env : Env,
      (cacheEmergencyData "" p now env st).2
        = (cacheEmergencyData k p now env st).2 ∧
      (clearCachedEmergencyData "" env st).2
        = (clearCachedEmergencyData k env st).2) := by
  have h := openDB_happy st.memo hm
  refine ⟨?_, ?_, ?_, ?_, fun env => ⟨?_, ?_⟩⟩
  · simp [cacheEmergencyData, h, happyEnv_txFails]
  · simp [cacheEmergencyData, h, happyEnv_txFails]
  · simp [cacheEmergencyData, getCachedEmergencyData, h, openDB_some,
      happyEnv_txFails]
  · simp [clearCachedEmergencyData, h, happyEnv_txFails]
  · unfold cacheEmergencyData
    rcases openDB st.memo env with ⟨m, r⟩
    rcases r with r | r <;> by_cases htx : env.txFails <;> simp [htx]
  · unfold clearCachedEmergencyData
    rcases openDB st.memo env with ⟨m, r⟩
    rcases r with r | r <;> by_cases htx : env.txFails <;> simp [htx]

theorem c10_empty_key_not_special_witness :
    memoHealthy (initialState Nat).memo ∧
    ((cacheEmergencyData "" (3 : Nat) 11 happyEnv (initialState Nat)).2
        = .ok () ∧
      ((cacheEmergencyData "" (3 : Nat) 11 happyEnv
          (initialState Nat)).1).store "" = some ⟨"", 3, 11⟩ ∧
      (getCachedEmergencyData "" happyEnv
          (cacheEmergencyData "" (3 : Nat) 11 happyEnv
            (initialState Nat)).1).2 = .ok (some (3, 11)) ∧
      (clearCachedEmergencyData "" happyEnv (initialState Nat)).2
        = .ok () ∧
      (∀ env : Env,
        (cacheEmergencyData "" (3 : Nat) 11 env (initialState Nat)).2
          = (cacheEmergencyData "x" (3 : Nat) 11 env (initialState Nat)).2 ∧
        (clearCachedEmergencyData "" env (initialState Nat)).2
          = (clearCachedEmergencyData "x" env (initialState Nat)).2)) :=
  ⟨Or.inl rfl,
    c10_empty_key_not_special "x" 3 11 (initialState Nat) (Or.inl rfl)⟩

end PolicyVault.OfflineCache
